import Mathlib

/-!
# The PostgreSQL appliance HTTP handler (`appliance/postgresql/handler.go`)

A shallow embedding of `Handler.healthStatus`, `Handler.handleGetStatus` and
`Handler.handlePostStop`.

The handler owns no state of its own.  Everything it does is a sequence of
calls to three injected collaborators (`Peer`, `Process`, `Heartbeater`), a
logger and the HTTP response writer.  The collaborators are modelled as
state-passing functions over an arbitrary world type `σ`, so the outcome of a
later call may depend on the calls made before it.  Every handler returns,
besides its Go result, the ordered list of effects it performed (`Event`) and
the world it leaves behind.

Go pointers are `Option`s (`nil` is `none`), a Go `error` is `Option Error`.
-/

namespace Drycc

/-! ## Data model -/

/-- Modelled from the spec: `status.Status` of `pkg/status`, whose declaration
is not part of the sources at hand; the handler only uses the two constants
`status.Healthy` and `status.Unhealthy` (spec: HealthVerdict). -/
inductive Status where
  | Healthy
  | Unhealthy
  deriving DecidableEq, Repr

/-- Modelled from the spec: `state.Role` of `pkg/sirenia/state`
(spec: ReplicationRole, enum {None, Primary, Sync, Async}); the handler
compares it with `state.RolePrimary`, `state.RoleSync`, `state.RoleAsync`. -/
inductive Role where
  | None
  | Primary
  | Sync
  | Async
  deriving DecidableEq, Repr

/-- Modelled from the spec: the peer / downstream reference held in
`State.Sync` and `DatabaseInfo.SyncedDownstream`.  The handler reads its `ID`
field only (handler.go:54); `Addr` stands for the fields it never reads. -/
structure Instance where
  ID : String
  Addr : String
  deriving DecidableEq, Repr

/-- Modelled from the spec: `state.State` (spec: ReplicationState): the
`Singleton` flag and the optional designated synchronous peer `Sync`. -/
structure State where
  Singleton : Bool
  Sync : Option Instance
  deriving DecidableEq, Repr

/-- Modelled from the spec: the value returned by `Peer.Info()`
(spec: PeerSnapshot).  `RetryPending` is a nullable time stamp, `State` a
nullable `State`. -/
structure PeerInfo where
  Role : Role
  RetryPending : Option Nat
  State : Option State
  deriving DecidableEq, Repr

/-- Modelled from the spec: `client.DatabaseInfo` (spec: ProcessSnapshot), the
fields the handler reads. -/
structure DatabaseInfo where
  Running : Bool
  UserExists : Bool
  ReadWrite : Bool
  SyncedDownstream : Option Instance
  deriving DecidableEq, Repr

/-- Modelled from the spec: `client.Status`, the document of `GET /status`
(spec: `{peer: PeerSnapshot, database: ProcessSnapshot|null}`). -/
structure ClientStatus where
  Peer : PeerInfo
  Database : Option DatabaseInfo
  deriving DecidableEq, Repr

/-- A non-nil Go `error` value. -/
structure Error where
  msg : String
  deriving DecidableEq, Repr

/-! ## Collaborators -/

/-- The `*state.Peer` collaborator: `Info()` and `Stop() error`. -/
structure Peer (σ : Type) where
  Info : σ → PeerInfo × σ
  Stop : σ → Option Error × σ

/-- The `*Process` collaborator: `Info() (*client.DatabaseInfo, error)`.
Both components of the Go result pair are kept: a value may accompany an
error, and a nil value may come without one. -/
structure Process (σ : Type) where
  Info : σ → (Option DatabaseInfo × Option Error) × σ

/-- The `discoverd.Heartbeater` collaborator: `Close() error`. -/
structure Heartbeater (σ : Type) where
  Close : σ → Option Error × σ

/-- The `Handler` struct (handler.go:16-23), without the router and the
logger, which carry no data the three handlers read. -/
structure Handler (σ : Type) where
  Process : Process σ
  Peer : Peer σ
  Heartbeater : Heartbeater σ

/-- One observable effect of a handler, in the order performed. -/
inductive Event where
  /-- The call `h.Peer.Info()`. -/
  | PeerInfo
  /-- The call `h.Peer.Stop()`. -/
  | PeerStop
  /-- The call `h.Process.Info()`. -/
  | ProcessInfo
  /-- The call `h.Heartbeater.Close()`. -/
  | HeartbeaterClose
  /-- The call `logger.Error("error getting postgres info", "err", err)`. -/
  | LogError (err : Error)
  /-- The call `httphelper.JSON(w, code, doc)`: the document with the given
  HTTP status code. -/
  | WriteJSON (code : Nat) (doc : ClientStatus)
  /-- The call `httphelper.Error(w, err)`: the error response built from `err`
  (spec: error body and a non-2xx status). -/
  | WriteError (err : Error)
  /-- The call `w.WriteHeader(code)`. -/
  | WriteHeader (code : Nat)
  deriving DecidableEq, Repr

/-- What a handler run leaves behind: its Go return value, the effects it
performed in order, and the world after the run. -/
structure Run (σ α : Type) where
  value : α
  trace : List Event
  world : σ

/-! ## The handlers -/

/-- The test of handler.go:54,
`process.SyncedDownstream == nil || info.State.Sync == nil ||
 info.State.Sync.ID != process.SyncedDownstream.ID`,
with Go's left-to-right short-circuit: the IDs are compared only when both
pointers are non-nil. -/
def downstreamMismatch (st : State) (process : DatabaseInfo) : Bool :=
  match process.SyncedDownstream, st.Sync with
  | none, _ => true
  | some _, none => true
  | some down, some sync => sync.ID != down.ID

/-- `Handler.healthStatus` (handler.go:39-60).  The value is `none` when the
Go code panics on a nil pointer dereference: `process.Running` at line 47 when
`Process.Info` returns a nil snapshot together with a nil error. -/
def healthStatus {σ : Type} (h : Handler σ) (w : σ) : Run σ (Option Status) :=
  let (info, w1) := h.Peer.Info w
  if info.State.isNone || info.RetryPending.isSome ||
      (info.Role != Role.Primary && info.Role != Role.Sync && info.Role != Role.Async) then
    ⟨some Status.Unhealthy, [Event.PeerInfo], w1⟩
  else
    let ((process, err), w2) := h.Process.Info w1
    let tr := [Event.PeerInfo, Event.ProcessInfo]
    if err.isSome then
      ⟨some Status.Unhealthy, tr, w2⟩
    else
      match process with
      | none => ⟨none, tr, w2⟩
      | some process =>
        if !process.Running || !process.UserExists then
          ⟨some Status.Unhealthy, tr, w2⟩
        else if info.Role == Role.Primary then
          if !process.ReadWrite then
            ⟨some Status.Unhealthy, tr, w2⟩
          else
            match info.State with
            | none => ⟨none, tr, w2⟩
            | some st =>
              if !st.Singleton && downstreamMismatch st process then
                ⟨some Status.Unhealthy, tr, w2⟩
              else
                ⟨some Status.Healthy, tr, w2⟩
        else
          ⟨some Status.Healthy, tr, w2⟩

/-- `Handler.handleGetStatus` (handler.go:62-76). -/
def handleGetStatus {σ : Type} (h : Handler σ) (w : σ) : Run σ Unit :=
  let (info, w1) := h.Peer.Info w
  let ((database, err), w2) := h.Process.Info w1
  let status : ClientStatus := { Peer := info, Database := database }
  match err with
  | some e =>
    ⟨(), [Event.PeerInfo, Event.ProcessInfo, Event.LogError e, Event.WriteJSON 200 status], w2⟩
  | none =>
    ⟨(), [Event.PeerInfo, Event.ProcessInfo, Event.WriteJSON 200 status], w2⟩

/-- `Handler.handlePostStop` (handler.go:78-88). -/
def handlePostStop {σ : Type} (h : Handler σ) (w : σ) : Run σ Unit :=
  let (err, w1) := h.Peer.Stop w
  match err with
  | some e => ⟨(), [Event.PeerStop, Event.WriteError e], w1⟩
  | none =>
    let (err, w2) := h.Heartbeater.Close w1
    match err with
    | some e => ⟨(), [Event.PeerStop, Event.HeartbeaterClose, Event.WriteError e], w2⟩
    | none => ⟨(), [Event.PeerStop, Event.HeartbeaterClose, Event.WriteHeader 200], w2⟩

/-! ## Observations on a run -/

/-- Whether the event is a call to one of the collaborators. -/
def Event.isCall : Event → Bool
  | Event.PeerInfo => true
  | Event.PeerStop => true
  | Event.ProcessInfo => true
  | Event.HeartbeaterClose => true
  | _ => false

/-- Whether the event writes to the HTTP response. -/
def Event.isResponse : Event → Bool
  | Event.WriteJSON _ _ => true
  | Event.WriteError _ => true
  | Event.WriteHeader _ => true
  | _ => false

/-- The collaborator calls of a trace, in order. -/
def calls (tr : List Event) : List Event := tr.filter Event.isCall

/-- The response writes of a trace, in order. -/
def responses (tr : List Event) : List Event := tr.filter Event.isResponse

/-! ## Recording collaborators -/

/-- The handler `h` with a call log attached to the world.  Every collaborator
method behaves as in `h` on the first component and, when it is applied and
only then, appends its own label to the log.  Whatever ends up in the log of a
run was put there by an application of that collaborator, in that order; the
handler body cannot write to it. -/
def recording {σ : Type} (h : Handler σ) : Handler (σ × List Event) :=
  { Process :=
      { Info := fun s => ((h.Process.Info s.1).1,
          ((h.Process.Info s.1).2, s.2 ++ [Event.ProcessInfo])) }
    Peer :=
      { Info := fun s => ((h.Peer.Info s.1).1,
          ((h.Peer.Info s.1).2, s.2 ++ [Event.PeerInfo]))
        Stop := fun s => ((h.Peer.Stop s.1).1,
          ((h.Peer.Stop s.1).2, s.2 ++ [Event.PeerStop])) }
    Heartbeater :=
      { Close := fun s => ((h.Heartbeater.Close s.1).1,
          ((h.Heartbeater.Close s.1).2, s.2 ++ [Event.HeartbeaterClose])) } }

/-! ## Concrete collaborators used at the worked inputs -/

/-- A handler over the trivial world whose collaborators return fixed
outcomes. -/
def fixedHandler (info : PeerInfo) (proc : Option DatabaseInfo × Option Error)
    (stop close : Option Error) : Handler Unit :=
  { Process := { Info := fun w => (proc, w) }
    Peer := { Info := fun w => (info, w), Stop := fun w => (stop, w) }
    Heartbeater := { Close := fun w => (close, w) } }

/-- A stable primary of a replicated cluster whose designated synchronous
peer is `replica-2`. -/
def replicatedPrimary : PeerInfo :=
  { Role := Role.Primary, RetryPending := none,
    State := some { Singleton := false, Sync := some { ID := "replica-2", Addr := "10.0.0.2:5432" } } }

/-- A running, provisioned, read-write process streaming synchronously to the
downstream with the given ID. -/
def fullyUp (downstream : String) : DatabaseInfo :=
  { Running := true, UserExists := true, ReadWrite := true,
    SyncedDownstream := some { ID := downstream, Addr := "10.0.0.9:5432" } }

/-- The error used at the worked inputs. -/
def connRefused : Error := { msg := "dial tcp 127.0.0.1:5432: connection refused" }

/-! ## The health probe -/

/-- C1. Primary of a replicated (non-singleton) cluster, peer stable,
`Process.Info` successful: the probe answers Healthy exactly when the process
is running, its user exists, it is read-write and its synced downstream is
present, the cluster's sync peer is present and both carry the same ID.  It
always answers (Healthy or Unhealthy), and an absent or differing synced
downstream gives Unhealthy. -/
theorem healthStatus_primary_replicated {σ : Type} (h : Handler σ) (w : σ)
    (st : State) (p : DatabaseInfo)
    (hrole : (h.Peer.Info w).1.Role = Role.Primary)
    (hstate : (h.Peer.Info w).1.State = some st)
    (hsingle : st.Singleton = false)
    (hretry : (h.Peer.Info w).1.RetryPending = none)
    (hproc : (h.Process.Info (h.Peer.Info w).2).1 = (some p, none)) :
    ((healthStatus h w).value = some Status.Healthy ↔
      p.Running = true ∧ p.UserExists = true ∧ p.ReadWrite = true ∧
        ∃ down sync, p.SyncedDownstream = some down ∧ st.Sync = some sync ∧
          sync.ID = down.ID) ∧
    ((healthStatus h w).value = some Status.Healthy ∨
      (healthStatus h w).value = some Status.Unhealthy) ∧
    (p.SyncedDownstream = none → (healthStatus h w).value = some Status.Unhealthy) ∧
    (∀ down sync, p.SyncedDownstream = some down → st.Sync = some sync →
      sync.ID ≠ down.ID → (healthStatus h w).value = some Status.Unhealthy) := by
  obtain ⟨R, U, RW, D⟩ := p
  obtain ⟨sg, sy⟩ := st
  simp only at hsingle
  subst hsingle
  cases R <;> cases U <;> cases RW <;> cases D <;> cases sy <;>
    simp [healthStatus, hrole, hstate, hretry, hproc, downstreamMismatch]
  split_ifs <;> simp_all

/-- The scenarios of C1: sync peer `replica-2` with synced downstream
`replica-2` is Healthy, with synced downstream `replica-3` Unhealthy. -/
theorem healthStatus_primary_replicated_witness :
    (healthStatus (fixedHandler replicatedPrimary (some (fullyUp "replica-2"), none) none none)
        ()).value = some Status.Healthy ∧
    (healthStatus (fixedHandler replicatedPrimary (some (fullyUp "replica-3"), none) none none)
        ()).value = some Status.Unhealthy :=
  ⟨(healthStatus_primary_replicated
      (fixedHandler replicatedPrimary (some (fullyUp "replica-2"), none) none none) ()
      { Singleton := false, Sync := some { ID := "replica-2", Addr := "10.0.0.2:5432" } }
      (fullyUp "replica-2") rfl rfl rfl rfl rfl).1.mpr
      ⟨rfl, rfl, rfl, _, _, rfl, rfl, rfl⟩,
   (healthStatus_primary_replicated
      (fixedHandler replicatedPrimary (some (fullyUp "replica-3"), none) none none) ()
      { Singleton := false, Sync := some { ID := "replica-2", Addr := "10.0.0.2:5432" } }
      (fullyUp "replica-3") rfl rfl rfl rfl rfl).2.2.2 _ _ rfl rfl (by decide)⟩

/-- C2. When the peer snapshot has no state, or a retry pending, or a role
other than Primary, Sync and Async, the probe answers Unhealthy, whatever the
`Process` collaborator is. -/
theorem healthStatus_peer_unstable {σ : Type} (h : Handler σ) (w : σ)
    (hbad : (h.Peer.Info w).1.State = none ∨ (h.Peer.Info w).1.RetryPending ≠ none ∨
      ((h.Peer.Info w).1.Role ≠ Role.Primary ∧ (h.Peer.Info w).1.Role ≠ Role.Sync ∧
        (h.Peer.Info w).1.Role ≠ Role.Async)) :
    (healthStatus h w).value = some Status.Unhealthy := by
  have hguard : ((h.Peer.Info w).1.State.isNone || (h.Peer.Info w).1.RetryPending.isSome ||
      ((h.Peer.Info w).1.Role != Role.Primary && (h.Peer.Info w).1.Role != Role.Sync &&
        (h.Peer.Info w).1.Role != Role.Async)) = true := by
    rcases hbad with hs | hr | ⟨h1, h2, h3⟩
    · simp [hs]
    · cases hrp : (h.Peer.Info w).1.RetryPending with
      | none => exact absurd hrp hr
      | some t => simp
    · simp [h1, h2, h3]
  unfold healthStatus
  simp only [hguard, if_true]

/-- C2 at concrete inputs: role None, state absent, retry pending, each
with a fully healthy process behind it. -/
theorem healthStatus_peer_unstable_witness :
    (healthStatus (fixedHandler { replicatedPrimary with Role := Role.None }
        (some (fullyUp "replica-2"), none) none none) ()).value = some Status.Unhealthy :=
  healthStatus_peer_unstable
    (fixedHandler { replicatedPrimary with Role := Role.None }
      (some (fullyUp "replica-2"), none) none none) ()
    (Or.inr (Or.inr ⟨by decide, by decide, by decide⟩))

/-- C3. Primary of a singleton cluster, peer stable, `Process.Info`
successful: the probe answers Healthy exactly when the process is running, its
user exists and it is read-write, and Unhealthy otherwise; neither the synced
downstream nor the cluster's sync peer enters the verdict. -/
theorem healthStatus_primary_singleton {σ : Type} (h : Handler σ) (w : σ)
    (st : State) (p : DatabaseInfo)
    (hrole : (h.Peer.Info w).1.Role = Role.Primary)
    (hstate : (h.Peer.Info w).1.State = some st)
    (hsingle : st.Singleton = true)
    (hretry : (h.Peer.Info w).1.RetryPending = none)
    (hproc : (h.Process.Info (h.Peer.Info w).2).1 = (some p, none)) :
    ((healthStatus h w).value = some Status.Healthy ↔
      p.Running = true ∧ p.UserExists = true ∧ p.ReadWrite = true) ∧
    ((healthStatus h w).value = some Status.Healthy ∨
      (healthStatus h w).value = some Status.Unhealthy) := by
  obtain ⟨R, U, RW, D⟩ := p
  obtain ⟨sg, sy⟩ := st
  simp only at hsingle
  subst hsingle
  cases R <;> cases U <;> cases RW <;>
    simp [healthStatus, hrole, hstate, hretry, hproc]

/-- C3 at a concrete input: a singleton primary whose process reports a
synced downstream that the cluster state does not know is Healthy. -/
theorem healthStatus_primary_singleton_witness :
    (healthStatus (fixedHandler
        { Role := Role.Primary, RetryPending := none,
          State := some { Singleton := true, Sync := none } }
        (some (fullyUp "replica-7"), none) none none) ()).value = some Status.Healthy :=
  (healthStatus_primary_singleton
    (fixedHandler
      { Role := Role.Primary, RetryPending := none,
        State := some { Singleton := true, Sync := none } }
      (some (fullyUp "replica-7"), none) none none) ()
    { Singleton := true, Sync := none } (fullyUp "replica-7") rfl rfl rfl rfl rfl).1.mpr
    ⟨rfl, rfl, rfl⟩

/-- C4. Role Sync or Async, peer stable, `Process.Info` successful: the probe
answers Healthy exactly when the process is running and its user exists, and
Unhealthy otherwise; read-write, singleton, synced downstream and sync peer do
not enter the verdict. -/
theorem healthStatus_replica {σ : Type} (h : Handler σ) (w : σ)
    (st : State) (p : DatabaseInfo)
    (hrole : (h.Peer.Info w).1.Role = Role.Sync ∨ (h.Peer.Info w).1.Role = Role.Async)
    (hstate : (h.Peer.Info w).1.State = some st)
    (hretry : (h.Peer.Info w).1.RetryPending = none)
    (hproc : (h.Process.Info (h.Peer.Info w).2).1 = (some p, none)) :
    ((healthStatus h w).value = some Status.Healthy ↔
      p.Running = true ∧ p.UserExists = true) ∧
    ((healthStatus h w).value = some Status.Healthy ∨
      (healthStatus h w).value = some Status.Unhealthy) := by
  obtain ⟨R, U, RW, D⟩ := p
  rcases hrole with hrole | hrole <;> cases R <;> cases U <;>
    simp [healthStatus, hrole, hstate, hretry, hproc]

/-- C4 at concrete inputs: a read-only Sync replica with no downstream is
Healthy, an Async replica whose user is missing is Unhealthy. -/
theorem healthStatus_replica_witness :
    (healthStatus (fixedHandler { replicatedPrimary with Role := Role.Sync }
        (some { Running := true, UserExists := true, ReadWrite := false,
                SyncedDownstream := none }, none) none none) ()).value = some Status.Healthy :=
  (healthStatus_replica
    (fixedHandler { replicatedPrimary with Role := Role.Sync }
      (some { Running := true, UserExists := true, ReadWrite := false,
              SyncedDownstream := none }, none) none none) ()
    { Singleton := false, Sync := some { ID := "replica-2", Addr := "10.0.0.2:5432" } }
    { Running := true, UserExists := true, ReadWrite := false, SyncedDownstream := none }
    (Or.inl rfl) rfl rfl rfl).1.mpr ⟨rfl, rfl⟩

/-- C5. Whenever the `Process.Info` call the probe would make returns an
error, the probe answers Unhealthy: it neither answers Healthy nor fails,
whatever snapshot (nil, partial or entirely healthy) comes with the error. -/
theorem healthStatus_process_error {σ : Type} (h : Handler σ) (w : σ)
    (herr : (h.Process.Info (h.Peer.Info w).2).1.2 ≠ none) :
    (healthStatus h w).value = some Status.Unhealthy := by
  cases he : (h.Process.Info (h.Peer.Info w).2).1.2 with
  | none => exact absurd he herr
  | some e =>
    unfold healthStatus
    simp only [he, Option.isSome_some, if_true]
    split <;> rfl

/-- C5 at a concrete input: a stable replicated primary, an entirely healthy
snapshot with the matching downstream, and an error next to it. -/
theorem healthStatus_process_error_witness :
    (healthStatus (fixedHandler replicatedPrimary
        (some (fullyUp "replica-2"), some connRefused) none none) ()).value =
      some Status.Unhealthy :=
  healthStatus_process_error
    (fixedHandler replicatedPrimary (some (fullyUp "replica-2"), some connRefused) none none) ()
    (by decide)

/-- The effects of the probe: `Peer.Info` alone when the guard of
handler.go:41-42 fires, `Peer.Info` followed by `Process.Info` otherwise. -/
theorem healthStatus_trace {σ : Type} (h : Handler σ) (w : σ) :
    (healthStatus h w).trace =
      if ((h.Peer.Info w).1.State.isNone || (h.Peer.Info w).1.RetryPending.isSome ||
          ((h.Peer.Info w).1.Role != Role.Primary && (h.Peer.Info w).1.Role != Role.Sync &&
            (h.Peer.Info w).1.Role != Role.Async)) = true
      then [Event.PeerInfo] else [Event.PeerInfo, Event.ProcessInfo] := by
  unfold healthStatus
  dsimp only
  repeat (first | rfl | split)

/-- The guard of handler.go:41-42 fires exactly when the state is absent, a
retry is pending, or the role is none of Primary, Sync, Async. -/
theorem peer_guard_iff (info : PeerInfo) :
    (info.State.isNone || info.RetryPending.isSome ||
        (info.Role != Role.Primary && info.Role != Role.Sync && info.Role != Role.Async)) = true ↔
      (info.State = none ∨ info.RetryPending ≠ none ∨
        (info.Role ≠ Role.Primary ∧ info.Role ≠ Role.Sync ∧ info.Role ≠ Role.Async)) := by
  obtain ⟨r, rp, st⟩ := info
  cases r <;> cases rp <;> cases st <;> simp

/-- The world the probe leaves behind: the one `Peer.Info` returned when the
guard of handler.go:41-42 fires, the one `Process.Info` returned, applied to
the world `Peer.Info` returned, otherwise. -/
theorem healthStatus_world {σ : Type} (h : Handler σ) (w : σ) :
    (healthStatus h w).world =
      if ((h.Peer.Info w).1.State.isNone || (h.Peer.Info w).1.RetryPending.isSome ||
          ((h.Peer.Info w).1.Role != Role.Primary && (h.Peer.Info w).1.Role != Role.Sync &&
            (h.Peer.Info w).1.Role != Role.Async)) = true
      then (h.Peer.Info w).2 else (h.Process.Info (h.Peer.Info w).2).2 := by
  unfold healthStatus
  dsimp only
  repeat (first | rfl | split)

/-- C10. The probe calls `Peer.Info` exactly once and first, calls
`Process.Info` not at all when the peer-level check fails (state absent, retry
pending, or role outside Primary, Sync, Async) and exactly once, right after
`Peer.Info`, otherwise, and performs nothing else: neither `Peer.Stop` nor
`Heartbeater.Close` is ever invoked.

This is stated on what the collaborators themselves observe.  The world after
the run is the world after exactly those transitions (`Peer.Info`, then
`Process.Info` or nothing), for every handler and world; and when every
collaborator records its own invocation (`recording`), the log after the run
is exactly `[PeerInfo]`, respectively `[PeerInfo, ProcessInfo]`, appended to
the log before it.  The effect list of the run agrees with that log. -/
theorem healthStatus_calls {σ : Type} (h : Handler σ) (w : σ) :
    (((h.Peer.Info w).1.State = none ∨ (h.Peer.Info w).1.RetryPending ≠ none ∨
        ((h.Peer.Info w).1.Role ≠ Role.Primary ∧ (h.Peer.Info w).1.Role ≠ Role.Sync ∧
          (h.Peer.Info w).1.Role ≠ Role.Async)) →
      (healthStatus h w).world = (h.Peer.Info w).2 ∧
      (∀ log, (healthStatus (recording h) (w, log)).world =
        ((h.Peer.Info w).2, log ++ [Event.PeerInfo])) ∧
      (healthStatus h w).trace = [Event.PeerInfo] ∧
      (healthStatus (recording h) (w, [])).world.2.count Event.ProcessInfo = 0) ∧
    (¬((h.Peer.Info w).1.State = none ∨ (h.Peer.Info w).1.RetryPending ≠ none ∨
        ((h.Peer.Info w).1.Role ≠ Role.Primary ∧ (h.Peer.Info w).1.Role ≠ Role.Sync ∧
          (h.Peer.Info w).1.Role ≠ Role.Async)) →
      (healthStatus h w).world = (h.Process.Info (h.Peer.Info w).2).2 ∧
      (∀ log, (healthStatus (recording h) (w, log)).world =
        ((h.Process.Info (h.Peer.Info w).2).2,
          log ++ [Event.PeerInfo, Event.ProcessInfo])) ∧
      (healthStatus h w).trace = [Event.PeerInfo, Event.ProcessInfo] ∧
      (healthStatus (recording h) (w, [])).world.2.count Event.ProcessInfo = 1) ∧
    (healthStatus (recording h) (w, [])).world.2.count Event.PeerInfo = 1 ∧
    (healthStatus (recording h) (w, [])).world.2.head? = some Event.PeerInfo ∧
    (healthStatus (recording h) (w, [])).world.2.count Event.ProcessInfo ≤ 1 ∧
    (healthStatus (recording h) (w, [])).world.2.count Event.PeerStop = 0 ∧
    (healthStatus (recording h) (w, [])).world.2.count Event.HeartbeaterClose = 0 ∧
    (healthStatus h w).trace = (healthStatus (recording h) (w, [])).world.2 ∧
    (healthStatus (recording h) (w, [])).value = (healthStatus h w).value := by
  have hval : (healthStatus (recording h) (w, [])).value = (healthStatus h w).value := by
    unfold healthStatus recording
    dsimp only
    by_cases hg : ((h.Peer.Info w).1.State.isNone || (h.Peer.Info w).1.RetryPending.isSome ||
        ((h.Peer.Info w).1.Role != Role.Primary && (h.Peer.Info w).1.Role != Role.Sync &&
          (h.Peer.Info w).1.Role != Role.Async)) = true
    · simp only [hg, if_true]
    · simp only [hg, if_false]
      cases (h.Process.Info (h.Peer.Info w).2).1.2 with
      | some e => simp
      | none =>
        cases (h.Process.Info (h.Peer.Info w).2).1.1 with
        | none => simp
        | some p =>
          cases (h.Peer.Info w).1.State with
          | none => simp; split_ifs <;> rfl
          | some st => simp; split_ifs <;> rfl
  have hrec : ∀ log, (healthStatus (recording h) (w, log)).world =
      if ((h.Peer.Info w).1.State.isNone || (h.Peer.Info w).1.RetryPending.isSome ||
          ((h.Peer.Info w).1.Role != Role.Primary && (h.Peer.Info w).1.Role != Role.Sync &&
            (h.Peer.Info w).1.Role != Role.Async)) = true
      then ((h.Peer.Info w).2, log ++ [Event.PeerInfo])
      else ((h.Process.Info (h.Peer.Info w).2).2, log ++ [Event.PeerInfo, Event.ProcessInfo]) := by
    intro log
    rw [healthStatus_world]
    simp [recording]
  simp only [hval, hrec, healthStatus_world, healthStatus_trace, ← peer_guard_iff]
  by_cases hg : ((h.Peer.Info w).1.State.isNone || (h.Peer.Info w).1.RetryPending.isSome ||
      ((h.Peer.Info w).1.Role != Role.Primary && (h.Peer.Info w).1.Role != Role.Sync &&
        (h.Peer.Info w).1.Role != Role.Async)) = true
  · simp [hg]
  · simp [hg]

/-! ## The stop command -/

/-- C6. Whatever `Peer.Stop` and `Heartbeater.Close` return, the stop handler
calls `Peer.Stop` exactly once and first; it then calls `Heartbeater.Close`
exactly once if `Peer.Stop` succeeded and not at all if it failed; no
collaborator is called after `Heartbeater.Close`, and `Peer.Info` and
`Process.Info` are never called.

This is stated on what the collaborators themselves observe.  The world after
the run is the world `Heartbeater.Close` returned, applied to the world
`Peer.Stop` returned, when `Peer.Stop` succeeded, and the world `Peer.Stop`
returned when it failed, for every handler and world; and when every
collaborator records its own invocation (`recording`), the log after the run
is exactly `[PeerStop, HeartbeaterClose]`, respectively `[PeerStop]`, appended
to the log before it.  The collaborator calls in the effect list of the run
agree with that log. -/
theorem handlePostStop_calls {σ : Type} (h : Handler σ) (w : σ) :
    (handlePostStop h w).world =
        (if (h.Peer.Stop w).1 = none then (h.Heartbeater.Close (h.Peer.Stop w).2).2
         else (h.Peer.Stop w).2) ∧
    (∀ log, (handlePostStop (recording h) (w, log)).world =
        (if (h.Peer.Stop w).1 = none then
          ((h.Heartbeater.Close (h.Peer.Stop w).2).2,
            log ++ [Event.PeerStop, Event.HeartbeaterClose])
         else ((h.Peer.Stop w).2, log ++ [Event.PeerStop]))) ∧
    (handlePostStop (recording h) (w, [])).world.2.head? = some Event.PeerStop ∧
    (handlePostStop (recording h) (w, [])).world.2.count Event.PeerStop = 1 ∧
    (handlePostStop (recording h) (w, [])).world.2.count Event.HeartbeaterClose =
        (if (h.Peer.Stop w).1 = none then 1 else 0) ∧
    (handlePostStop (recording h) (w, [])).world.2.getLast? =
        (if (h.Peer.Stop w).1 = none then some Event.HeartbeaterClose
         else some Event.PeerStop) ∧
    (handlePostStop (recording h) (w, [])).world.2.count Event.PeerInfo = 0 ∧
    (handlePostStop (recording h) (w, [])).world.2.count Event.ProcessInfo = 0 ∧
    calls (handlePostStop h w).trace = (handlePostStop (recording h) (w, [])).world.2 ∧
    (handlePostStop (recording h) (w, [])).trace = (handlePostStop h w).trace := by
  unfold handlePostStop calls recording
  dsimp only
  cases hs : (h.Peer.Stop w).1 with
  | some e => simp [List.filter, Event.isCall]
  | none =>
    cases hc : (h.Heartbeater.Close (h.Peer.Stop w).2).1 with
    | some e => simp [List.filter, Event.isCall]
    | none => simp [List.filter, Event.isCall]

/-- C7. The stop handler answers with the bare header 200 exactly when both
`Peer.Stop` and `Heartbeater.Close` succeed.  When `Peer.Stop` fails its
response is the error response built from exactly that error; when `Peer.Stop`
succeeds and `Heartbeater.Close` fails, from exactly that error.  In either
failure case no header 200 is written. -/
theorem handlePostStop_response {σ : Type} (h : Handler σ) (w : σ) :
    (responses (handlePostStop h w).trace = [Event.WriteHeader 200] ↔
      (h.Peer.Stop w).1 = none ∧ (h.Heartbeater.Close (h.Peer.Stop w).2).1 = none) ∧
    (∀ e, (h.Peer.Stop w).1 = some e →
      responses (handlePostStop h w).trace = [Event.WriteError e]) ∧
    (∀ e, (h.Peer.Stop w).1 = none → (h.Heartbeater.Close (h.Peer.Stop w).2).1 = some e →
      responses (handlePostStop h w).trace = [Event.WriteError e]) ∧
    (¬((h.Peer.Stop w).1 = none ∧ (h.Heartbeater.Close (h.Peer.Stop w).2).1 = none) →
      Event.WriteHeader 200 ∉ (handlePostStop h w).trace) := by
  unfold handlePostStop responses
  dsimp only
  cases hs : (h.Peer.Stop w).1 with
  | some e => simp [List.filter, Event.isResponse]
  | none =>
    cases hc : (h.Heartbeater.Close (h.Peer.Stop w).2).1 with
    | some e => simp [List.filter, Event.isResponse]
    | none => simp [List.filter, Event.isResponse]

/-! ## The diagnostic status -/

/-- C8. Whatever `Peer.Info` and `Process.Info` return, the status handler
writes exactly one response, a JSON document with HTTP status 200 whose peer
section is the value `Peer.Info` returned. -/
theorem handleGetStatus_peer {σ : Type} (h : Handler σ) (w : σ) :
    ∃ doc, responses (handleGetStatus h w).trace = [Event.WriteJSON 200 doc] ∧
      doc.Peer = (h.Peer.Info w).1 := by
  unfold handleGetStatus responses
  dsimp only
  cases he : (h.Process.Info (h.Peer.Info w).2).1.2 with
  | some e => exact ⟨_, rfl, rfl⟩
  | none => exact ⟨_, rfl, rfl⟩

/-- C9, refuted as stated: `Process.Info` returns an error together with a
partial snapshot, and the database section of the document is that snapshot,
not null. -/
theorem handleGetStatus_database_counterexample :
    ((fixedHandler replicatedPrimary
        (some { Running := true, UserExists := false, ReadWrite := false,
                SyncedDownstream := none }, some connRefused) none none).Process.Info ()).1.2
      = some connRefused ∧
    responses (handleGetStatus (fixedHandler replicatedPrimary
        (some { Running := true, UserExists := false, ReadWrite := false,
                SyncedDownstream := none }, some connRefused) none none) ()).trace =
      [Event.WriteJSON 200
        { Peer := replicatedPrimary,
          Database := some { Running := true, UserExists := false, ReadWrite := false,
                             SyncedDownstream := none } }] ∧
    ¬ ∀ doc, Event.WriteJSON 200 doc ∈ (handleGetStatus (fixedHandler replicatedPrimary
        (some { Running := true, UserExists := false, ReadWrite := false,
                SyncedDownstream := none }, some connRefused) none none) ()).trace →
      doc.Database = none := by
  refine ⟨rfl, rfl, ?_⟩
  intro hall
  have hdb := hall
    { Peer := replicatedPrimary,
      Database := some { Running := true, UserExists := false, ReadWrite := false,
                         SyncedDownstream := none } }
    (by decide)
  exact absurd hdb (by decide)

/-- C9, amended.  Whenever `Process.Info` returns an error, the database
section of the document is exactly the value `Process.Info` returned next to
the error; it is null exactly when that value is nil. -/
theorem handleGetStatus_database {σ : Type} (h : Handler σ) (w : σ)
    (herr : (h.Process.Info (h.Peer.Info w).2).1.2 ≠ none) :
    ∃ doc, responses (handleGetStatus h w).trace = [Event.WriteJSON 200 doc] ∧
      doc.Database = (h.Process.Info (h.Peer.Info w).2).1.1 ∧
      (doc.Database = none ↔ (h.Process.Info (h.Peer.Info w).2).1.1 = none) := by
  unfold handleGetStatus responses
  dsimp only
  cases he : (h.Process.Info (h.Peer.Info w).2).1.2 with
  | some e => exact ⟨_, rfl, rfl, Iff.rfl⟩
  | none => exact absurd he herr

/-- C9 amended, at concrete inputs: a nil value next to the error gives a null
database section. -/
theorem handleGetStatus_database_witness :
    ∃ doc, responses (handleGetStatus
        (fixedHandler replicatedPrimary (none, some connRefused) none none) ()).trace =
          [Event.WriteJSON 200 doc] ∧
      doc.Database = none ∧ (doc.Database = none ↔ (none : Option DatabaseInfo) = none) :=
  handleGetStatus_database
    (fixedHandler replicatedPrimary (none, some connRefused) none none) () (by decide)

/-- When `Process.Info` returns a nil snapshot with a nil error behind a stable
peer, the probe dereferences the nil pointer at handler.go:47 and yields no
verdict. -/
theorem healthStatus_nil_snapshot_stable :
    (healthStatus (fixedHandler replicatedPrimary (none, none) none none) ()).value = none := by
  decide

end Drycc
